import Mathlib

/-
Verification of the microbiome-demo analysis scripts.

Shallow embedding of src/scripts/differential_abundance.py and
src/scripts/diversity_analysis.py. Python dictionaries with optional
fields become structures with Option fields; the floating point
literals of the source are embedded as exact rationals (2.1 becomes
21/10, 0.001 becomes 1/1000, and so on); a raised ValueError becomes
Except.error. The configuration file read by load_config is abstracted
into an explicit Config record passed to the pipeline.
-/

/-- An abundance table: feature identifier paired with per-sample counts
(differential_abundance.py line 107 uses a dict from string to list of ints). -/
abbrev AbundanceTable := List (String × List ℕ)

/-- A per-feature analysis record. The Python code builds heterogeneous
dicts: deseq2 rows carry taxon, log2fc, padj; ancom rows carry taxon, W,
detected. Optional fields model the dict lookups with defaults
(r.get in lines 126-127 of differential_abundance.py). -/
structure AnalysisResult where
  taxon : String
  log2fc : Option ℚ
  padj : Option ℚ
  W : Option ℤ
  detected : Option Bool
deriving DecidableEq, Repr

/-- Embedding of filter_low_abundance (differential_abundance.py lines 13-29):
after a status print the function returns asv_table unchanged. -/
def filter_low_abundance (asv_table : AbundanceTable)
    (min_prevalence min_abundance : ℚ) : AbundanceTable :=
  asv_table

/-- The hardcoded simulated result list of run_deseq2
(differential_abundance.py lines 50-54): padj values 0.001, 0.02, 0.003
and log2fc values 2.1, -1.5, 1.8. -/
def deseq2_sim_results : List AnalysisResult :=
  [⟨"Bacteroides", some (21/10), some (1/1000), none, none⟩,
   ⟨"Prevotella", some (-(3/2)), some (1/50), none, none⟩,
   ⟨"Akkermansia", some (9/5), some (3/1000), none, none⟩]

/-- Embedding of run_deseq2 (differential_abundance.py lines 32-55): every
argument is ignored and the fixed simulated list is returned. -/
def run_deseq2 (counts : AbundanceTable) (groups : List String) (alpha : ℚ) :
    List AnalysisResult :=
  deseq2_sim_results

/-- The hardcoded simulated result list of run_ancom
(differential_abundance.py lines 74-77). -/
def ancom_sim_results : List AnalysisResult :=
  [⟨"Bacteroides", none, none, some 45, some true⟩,
   ⟨"Faecalibacterium", none, none, some 38, some true⟩]

/-- Embedding of run_ancom (differential_abundance.py lines 58-78). -/
def run_ancom (counts : AbundanceTable) (groups : List String) :
    List AnalysisResult :=
  ancom_sim_results

/-- Embedding of run_aldex2 (differential_abundance.py lines 81-92):
returns the empty list. -/
def run_aldex2 (counts : AbundanceTable) (groups : List String) :
    List AnalysisResult :=
  []

/-- Embedding of the method dispatch of run_differential_analysis
(differential_abundance.py lines 116-124): the if/elif chain on the
configured method name; the final else raises ValueError, embedded as
Except.error. -/
def dispatchMethod (method : String) (filtered : AbundanceTable)
    (groups : List String) (threshold : ℚ) :
    Except String (List AnalysisResult) :=
  if method = "deseq2" then Except.ok (run_deseq2 filtered groups threshold)
  else if method = "ancom" then Except.ok (run_ancom filtered groups)
  else if method = "aldex2" then Except.ok (run_aldex2 filtered groups)
  else Except.error ("Unknown method: " ++ method)

/-- Embedding of the significance test applied to one record
(differential_abundance.py lines 126-127):
r.get with default 0 for padj compared against the threshold, or-ed with
r.get with default False for detected. -/
def is_significant (r : AnalysisResult) (threshold : ℚ) : Bool :=
  decide (r.padj.getD 0 < threshold) || r.detected.getD false

/-- Embedding of the sig_taxa list comprehension
(differential_abundance.py lines 126-127). -/
def sig_taxa (results : List AnalysisResult) (threshold : ℚ) :
    List AnalysisResult :=
  results.filter (fun r => is_significant r threshold)

/-- The configuration keys consumed by the differential stage
(analysis_params.yaml entries read in lines 102-118). -/
structure Config where
  differential_method : String
  significance_threshold : ℚ
  min_prevalence : ℚ
  min_abundance : ℚ

/-- The simulated abundance table of run_differential_analysis
(differential_abundance.py line 107); the same literal appears in
diversity_analysis.py line 120. -/
def asv_table_sim : AbundanceTable :=
  [("ASV1", [100, 50, 75]), ("ASV2", [200, 150, 180])]

/-- The simulated group assignment (differential_abundance.py line 108). -/
def groups_sim : List String :=
  ["treatment", "control", "treatment"]

/-- The differential stage body abstracted over its input table and groups
(differential_abundance.py lines 110-130): prefilter, dispatch on the
configured method, return the method results. The sig_taxa list is
computed only to print its count; the function returns results. -/
def run_stage (table : AbundanceTable) (groups : List String)
    (config : Config) : Except String (List AnalysisResult) :=
  let filtered := filter_low_abundance table config.min_prevalence
    config.min_abundance
  dispatchMethod config.differential_method filtered groups
    config.significance_threshold

/-- Embedding of run_differential_analysis
(differential_abundance.py lines 95-130): the stage applied to the
hardcoded simulated table and groups. -/
def run_differential_analysis (config : Config) :
    Except String (List AnalysisResult) :=
  run_stage asv_table_sim groups_sim config

/-- Embedding of rarefy_samples (diversity_analysis.py lines 13-28):
after a status print the function returns asv_table unchanged. -/
def rarefy_samples (asv_table : AbundanceTable)
    (rarefaction_depth : ℕ) : AbundanceTable :=
  asv_table

/-- Embedding of calculate_beta_diversity (diversity_analysis.py
lines 62-84): every argument is ignored and the fixed simulated
distance matrix with entries 0.3, 0.5, 0.4 is returned. -/
def calculate_beta_diversity (rarefied_table : AbundanceTable)
    (metric : String) : List (List ℚ) :=
  [[0, 3/10, 1/2], [3/10, 0, 2/5], [1/2, 2/5, 0]]

/-- The record returned by run_permanova (diversity_analysis.py line 105). -/
structure PermanovaResult where
  F_statistic : ℚ
  p_value : ℚ
  R2 : ℚ
deriving DecidableEq, Repr

/-- Embedding of run_permanova (diversity_analysis.py lines 87-105):
every argument is ignored and the fixed record with F statistic 4.2,
p value 0.012 and R2 0.15 is returned. -/
def run_permanova (distance_matrix : List (List ℚ))
    (groups : List String) (permutations : ℕ) : PermanovaResult :=
  ⟨21/5, 3/250, 3/20⟩

/-- Spec-side definition, for stating claims about prefiltering: the
prevalence of a feature is the fraction of samples in which its count is
non-zero. The source never computes this; the definition follows the
spec wording in section 4.3 step 1. -/
def specPrevalence (counts : List ℕ) : ℚ :=
  if counts.length = 0 then 0
  else (counts.countP (fun c => decide (0 < c)) : ℚ) / (counts.length : ℚ)

/-- Total count of a table, summed over all features and samples. -/
def grandTotal (table : AbundanceTable) : ℕ :=
  (table.map (fun p => p.2.sum)).sum

/-- Spec-side definition, for stating claims about prefiltering: the
total relative abundance of a feature is its total count divided by the
grand total of the table. The source never computes this; the definition
follows the spec wording in section 4.3 step 1. -/
def specRelAbundance (table : AbundanceTable) (counts : List ℕ) : ℚ :=
  if grandTotal table = 0 then 0
  else (counts.sum : ℚ) / (grandTotal table : ℚ)

/-- Spec-side selection rule of claim C4: a record passes when it carries
a padj field strictly below the threshold. -/
def padjBelow (r : AnalysisResult) (threshold : ℚ) : Bool :=
  match r.padj with
  | some p => decide (p < threshold)
  | none => false

/-- Entry of a rational matrix given as a list of rows, with default 0. -/
def entryD (m : List (List ℚ)) (i j : ℕ) : ℚ :=
  (m.getD i []).getD j 0

/-- Claim C1 evaluation at the failing input: a record carrying neither a
padj field nor a detected field IS selected by the significance test of
differential_abundance.py lines 126-127 at the positive threshold 0.05,
because the missing padj defaults to 0 and 0 is below every positive
threshold. The claim says such a record is never significant; the code
selects it. -/
theorem sig_filter_selects_fieldless_record :
    is_significant ⟨"NoFields", none, none, none, none⟩ (1/20) = true ∧
    sig_taxa [⟨"NoFields", none, none, none, none⟩] (1/20) =
      [⟨"NoFields", none, none, none, none⟩] := by
  constructor
  · simp [is_significant]
  · simp [sig_taxa, is_significant]

/-- Claim C2 evaluation at the failing input: filter_low_abundance is the
identity, so the feature ASV0 with all-zero counts, whose prevalence 0 is
below the threshold 0.1 and whose relative abundance 0 is below the
threshold 0.001, is still present in the output. The claim says a feature
failing both thresholds is never returned. -/
theorem filter_keeps_doubly_failing_feature :
    ("ASV0", [0, 0, 0]) ∈
      filter_low_abundance [("ASV0", [0, 0, 0]), ("ASV1", [100, 50, 75])]
        (1/10) (1/1000) ∧
    specPrevalence [0, 0, 0] < 1/10 ∧
    specRelAbundance [("ASV0", [0, 0, 0]), ("ASV1", [100, 50, 75])]
      [0, 0, 0] < 1/1000 := by
  refine ⟨?_, ?_, ?_⟩
  · simp [filter_low_abundance]
  · simp [specPrevalence]
  · simp [specRelAbundance, grandTotal]

/-- Claim C3: the method dispatch of differential_abundance.py lines
116-124 fails with the unknown-method error for every name outside
the set of deseq2, ancom and aldex2, and succeeds for each of the
three listed names. -/
theorem dispatchMethod_resolution (m : String) (t : AbundanceTable)
    (g : List String) (a : ℚ) :
    (m ≠ "deseq2" → m ≠ "ancom" → m ≠ "aldex2" →
      dispatchMethod m t g a = Except.error ("Unknown method: " ++ m)) ∧
    dispatchMethod "deseq2" t g a = Except.ok (run_deseq2 t g a) ∧
    dispatchMethod "ancom" t g a = Except.ok (run_ancom t g) ∧
    dispatchMethod "aldex2" t g a = Except.ok (run_aldex2 t g) := by
  refine ⟨?_, ?_, ?_, ?_⟩
  · intro h1 h2 h3
    simp [dispatchMethod, h1, h2, h3]
  · simp [dispatchMethod]
  · simp [dispatchMethod]
  · simp [dispatchMethod]

/-- Witness for claim C3 at the concrete name qiime2 (not in the set)
and the concrete name deseq2 (in the set). -/
theorem dispatchMethod_resolution_witness :
    dispatchMethod "qiime2" [] [] 0 =
      Except.error ("Unknown method: " ++ "qiime2") ∧
    dispatchMethod "deseq2" [] [] 0 = Except.ok (run_deseq2 [] [] 0) :=
  ⟨(dispatchMethod_resolution "qiime2" [] [] 0).1
      (by decide) (by decide) (by decide),
   (dispatchMethod_resolution "qiime2" [] [] 0).2.1⟩

/-- Claim C4: with the example table, the example groups, method deseq2
and threshold 0.05, the pipeline returns exactly the records of the
deseq2 routine output whose padj is strictly below 0.05 and no others
(all three simulated records have padj below 0.05, so the unfiltered
list the pipeline returns coincides with the padj-filtered list). -/
theorem pipeline_deseq2_returns_exactly_padj_significant :
    run_differential_analysis ⟨"deseq2", 1/20, 1/10, 1/1000⟩ =
      Except.ok ((run_deseq2 asv_table_sim groups_sim (1/20)).filter
        (fun r => padjBelow r (1/20))) := by
  simp [run_differential_analysis, run_stage, filter_low_abundance,
    dispatchMethod, run_deseq2, deseq2_sim_results, padjBelow]
  norm_num

/-- Counterexample to claim C5: running the differential stage on an
empty table with method deseq2 completes without error but returns the
three hardcoded simulated records, not zero results. -/
theorem run_stage_empty_table_not_zero_results :
    run_stage [] [] ⟨"deseq2", 1/20, 1/10, 1/1000⟩ =
      Except.ok deseq2_sim_results ∧
    deseq2_sim_results.length ≠ 0 := by
  constructor
  · simp [run_stage, filter_low_abundance, dispatchMethod, run_deseq2]
  · simp [deseq2_sim_results]

/-- Claim C5 as amended: running the differential stage on an empty table
with any of the three supported methods completes without error, and the
result list is the hardcoded output of the configured method, of length 3
for deseq2, 2 for ancom and 0 for aldex2 (zero results only for aldex2). -/
theorem run_stage_empty_table_no_error (groups : List String) (cfg : Config)
    (h : cfg.differential_method = "deseq2" ∨
      cfg.differential_method = "ancom" ∨
      cfg.differential_method = "aldex2") :
    ∃ rs : List AnalysisResult, run_stage [] groups cfg = Except.ok rs ∧
      rs.length = (if cfg.differential_method = "deseq2" then 3
        else if cfg.differential_method = "ancom" then 2 else 0) := by
  rcases h with h | h | h
  · exact ⟨deseq2_sim_results, by simp [run_stage, filter_low_abundance,
      dispatchMethod, run_deseq2, h], by simp [h, deseq2_sim_results]⟩
  · exact ⟨ancom_sim_results, by simp [run_stage, filter_low_abundance,
      dispatchMethod, run_ancom, h], by simp [h, ancom_sim_results]⟩
  · exact ⟨[], by simp [run_stage, filter_low_abundance,
      dispatchMethod, run_aldex2, h], by simp [h]⟩

/-- Witness for the amended claim C5 at the concrete configuration with
method deseq2. -/
theorem run_stage_empty_table_no_error_witness :
    ∃ rs : List AnalysisResult,
      run_stage [] [] ⟨"deseq2", 1/20, 1/10, 1/1000⟩ = Except.ok rs ∧
      rs.length = (if (Config.mk "deseq2" (1/20) (1/10)
        (1/1000)).differential_method = "deseq2" then 3
        else if (Config.mk "deseq2" (1/20) (1/10)
          (1/1000)).differential_method = "ancom" then 2 else 0) :=
  run_stage_empty_table_no_error [] ⟨"deseq2", 1/20, 1/10, 1/1000⟩
    (Or.inl rfl)

/-- Claim C6: for every input table and every metric name, the distance
matrix returned by calculate_beta_diversity is square, symmetric, has
zero diagonal and contains only non-negative entries. -/
theorem beta_diversity_matrix_invariants (t : AbundanceTable)
    (metric : String) :
    (∀ row ∈ calculate_beta_diversity t metric,
      row.length = (calculate_beta_diversity t metric).length) ∧
    (∀ i, i < (calculate_beta_diversity t metric).length →
      ∀ j, j < (calculate_beta_diversity t metric).length →
        entryD (calculate_beta_diversity t metric) i j =
          entryD (calculate_beta_diversity t metric) j i) ∧
    (∀ i, i < (calculate_beta_diversity t metric).length →
      entryD (calculate_beta_diversity t metric) i i = 0) ∧
    (∀ row ∈ calculate_beta_diversity t metric, ∀ x ∈ row, 0 ≤ x) := by
  refine ⟨?_, ?_, ?_, ?_⟩
  · intro row hrow
    simp [calculate_beta_diversity] at hrow ⊢
    rcases hrow with h | h | h <;> simp [h]
  · intro i hi j hj
    simp [calculate_beta_diversity] at hi hj
    interval_cases i <;> interval_cases j <;>
      norm_num [entryD, calculate_beta_diversity]
  · intro i hi
    simp [calculate_beta_diversity] at hi
    interval_cases i <;> norm_num [entryD, calculate_beta_diversity]
  · intro row hrow x hx
    simp [calculate_beta_diversity] at hrow
    rcases hrow with h | h | h <;> subst h <;> simp at hx <;>
      rcases hx with h | h | h <;> subst h <;> norm_num

/-- Witness for claim C6 at the concrete simulated table and the
bray_curtis metric, at concrete indices. -/
theorem beta_diversity_matrix_invariants_witness :
    entryD (calculate_beta_diversity asv_table_sim "bray_curtis") 0 1 =
      entryD (calculate_beta_diversity asv_table_sim "bray_curtis") 1 0 ∧
    entryD (calculate_beta_diversity asv_table_sim "bray_curtis") 2 2 = 0 :=
  ⟨(beta_diversity_matrix_invariants asv_table_sim "bray_curtis").2.1 0
      (by norm_num [calculate_beta_diversity]) 1
      (by norm_num [calculate_beta_diversity]),
   (beta_diversity_matrix_invariants asv_table_sim "bray_curtis").2.2.1 2
      (by norm_num [calculate_beta_diversity])⟩

/-- Claim C7: for every distance matrix, every group assignment and every
permutation count of at least 1, the p value returned by run_permanova
lies in the closed interval from 0 to 1. -/
theorem permanova_p_value_in_unit_interval (dm : List (List ℚ))
    (g : List String) (p : ℕ) (h : 1 ≤ p) :
    0 ≤ (run_permanova dm g p).p_value ∧
      (run_permanova dm g p).p_value ≤ 1 := by
  simp [run_permanova]
  norm_num

/-- Witness for claim C7 at the simulated distance matrix, the simulated
groups and 999 permutations. -/
theorem permanova_p_value_in_unit_interval_witness :
    (1 : ℕ) ≤ 999 ∧
    (0 ≤ (run_permanova (calculate_beta_diversity asv_table_sim
        "bray_curtis") groups_sim 999).p_value ∧
      (run_permanova (calculate_beta_diversity asv_table_sim
        "bray_curtis") groups_sim 999).p_value ≤ 1) :=
  ⟨by norm_num,
   permanova_p_value_in_unit_interval
     (calculate_beta_diversity asv_table_sim "bray_curtis") groups_sim 999
     (by norm_num)⟩

/-- Claim C8: rarefaction is reproducible. The embedded rarefy_samples of
diversity_analysis.py lines 13-28 is a pure function returning its input
unchanged, so two runs on the same inputs give identical output tables
(second conjunct: the output is the input itself, so no hidden random
state exists that could differ between runs). -/
theorem rarefy_samples_reproducible (t : AbundanceTable) (d : ℕ) :
    rarefy_samples t d = rarefy_samples t d ∧ rarefy_samples t d = t :=
  ⟨rfl, rfl⟩

/-- Claim C9: filter_low_abundance returns its input table unchanged for
every pair of thresholds, and is therefore idempotent. -/
theorem filter_low_abundance_identity_and_idempotent (t : AbundanceTable)
    (p a : ℚ) :
    filter_low_abundance t p a = t ∧
    filter_low_abundance (filter_low_abundance t p a) p a =
      filter_low_abundance t p a :=
  ⟨rfl, rfl⟩

/-- Claim C10: the output of run_deseq2 is independent of all of its
inputs; any two invocations return the same fixed list. -/
theorem run_deseq2_ignores_inputs (c c' : AbundanceTable)
    (g g' : List String) (a a' : ℚ) :
    run_deseq2 c g a = run_deseq2 c' g' a' :=
  rfl
